import Mathlib

/-!
# grpc-framework server: configuration, construction, start and admission gate

A shallow embedding of `server/server_config.go` and
`server/grpc_framework_server.go`.

* Go pointers and interfaces that may be nil are `Option` values.
* A Go function that can return an error or fault returns an `Outcome`.
* Calls on collaborators outside these two files (the transport package,
  the TLS file loader, the logger) are functions of an `Env` record, and
  every such call is recorded in a trace, so that "is never called" and
  "is called with these arguments" are statements about the trace.
* Interceptors are functions in Go; here each one is the name of the stage,
  which is all the chain construction looks at.
-/

namespace GrpcFramework

/-! ## Results -/

/-- Result of a Go call: a value, a returned `error` (its message), or a
run-time fault (a Go panic such as a nil pointer dereference). -/
inductive Outcome (α : Type) where
  | ok (a : α)
  | error (msg : String)
  | fault (reason : String)

/-- The message of the Go run-time fault raised by reading a field through a nil pointer. -/
def nilDereference : String :=
  "runtime error: invalid memory address or nil pointer dereference"

/-! ## server_config.go -/

/-- TLSConfig points to the cert files needed for HTTPS. -/
structure TLSConfig where
  CertFile : String
  KeyFile : String
deriving DecidableEq, Repr

/-- Handle of a `role.RoleManager` implementation (an interface value of another package). -/
structure RoleManager where
  id : Nat
deriving DecidableEq, Repr

/-- Handle of an `auth.Authenticator` implementation (an interface value of another package). -/
structure Authenticator where
  id : Nat
deriving DecidableEq, Repr

/-- SecurityConfig provides configuration for SDK auth. `Authenticators` is a
Go map from issuer to authenticator: `none` is the nil map, `some l` lists the
entries in the order a `range` over the map visits them. -/
structure SecurityConfig where
  Role : Option RoleManager
  Tls : Option TLSConfig
  Authenticators : Option (List (String × Authenticator))
deriving DecidableEq, Repr

/-- Go `len` of a map: zero for the nil map. -/
def mapLen {α : Type} : Option (List α) → Nat
  | none => 0
  | some l => l.length

/-- Entries visited by a Go `range` over a map: none for the nil map. -/
def mapRange {α : Type} : Option (List α) → List α
  | none => []
  | some l => l

/-- Options of `cors.Options` that the defaults set. -/
structure CorsOptions where
  AllowedOrigins : List String
  AllowedMethods : List String
  AllowCredentials : Bool
deriving DecidableEq, Repr

structure RestServerPrometheusConfig where
  Enabled : Bool
  Path : String
deriving DecidableEq, Repr

structure RestServerCorsConfig where
  Enabled : Bool
  CustomOptions : Option CorsOptions
deriving DecidableEq, Repr

structure RestServerConfig where
  Enabled : Bool
  Port : String
  CorsOptions : RestServerCorsConfig
  PrometheusConfig : RestServerPrometheusConfig
deriving DecidableEq, Repr

/-- Modelled from the spec: the `RateLimiter` interface, declared outside the
two source files, is "an opaque capability exposing allow() -> bool" with
internal state. The model is the most general such object: `answers n` is what
the `n`-th query will answer, and `calls` counts the queries made so far. -/
structure RateLimiter where
  answers : Nat → Bool
  calls : Nat

/-- One query of the limiter: the answer, and the limiter after the query. -/
def RateLimiter.Allow (r : RateLimiter) : Bool × RateLimiter :=
  (r.answers r.calls, { r with calls := r.calls + 1 })

structure RateLimiterConfig where
  RateLimiter : Option GrpcFramework.RateLimiter
  RateLimiterPerUser : Option GrpcFramework.RateLimiter

/-- Handle of an `io.Writer`. -/
structure Writer where
  id : Nat
deriving DecidableEq, Repr

/-- A `grpc.UnaryServerInterceptor`: one of the stages `Start` installs, or a
caller-supplied interceptor identified by a handle. -/
inductive UnaryServerInterceptor where
  | rwlockUnaryIntercepter
  | ContextUnaryServerInterceptor
  | grpcAuthUnaryServerInterceptor
  | authorizationServerUnaryInterceptor
  | loggerServerUnaryInterceptor
  | grpcPrometheusUnaryServerInterceptor
  | custom (id : Nat)
deriving DecidableEq, Repr

/-- A `grpc.StreamServerInterceptor`: one of the stages `Start` installs, or a
caller-supplied interceptor identified by a handle. -/
inductive StreamServerInterceptor where
  | rwlockStreamIntercepter
  | grpcAuthStreamServerInterceptor
  | authorizationServerStreamInterceptor
  | loggerServerStreamInterceptor
  | grpcPrometheusStreamServerInterceptor
  | custom (id : Nat)
deriving DecidableEq, Repr

/-- Handle of loaded `credentials.TransportCredentials`. -/
structure TransportCredentials where
  id : Nat
deriving DecidableEq, Repr

/-- A `tap.ServerInHandle`: the server's own `rateLimiter` method, or another handler. -/
inductive ServerInHandle where
  | rateLimiter
  | custom (id : Nat)
deriving DecidableEq, Repr

/-- A `grpc.ServerOption`. `UnaryInterceptor chain` is
`grpc.UnaryInterceptor(grpc_middleware.ChainUnaryServer(chain...))`, the single
interceptor that runs `chain` in order; likewise `StreamInterceptor`. -/
inductive ServerOption where
  | custom (id : Nat)
  | Creds (creds : TransportCredentials)
  | UnaryInterceptor (chain : List UnaryServerInterceptor)
  | StreamInterceptor (chain : List StreamServerInterceptor)
  | InTapHandle (h : ServerInHandle)
deriving DecidableEq, Repr

/-- ServerConfig provides the configuration to the SDK server. Callbacks
(`GrpcServerExtensions`, `RestServerExtensions`) are handles. -/
structure ServerConfig where
  Name : String
  Net : String
  Address : String
  RestConfig : RestServerConfig
  Socket : String
  AuditOutput : Option Writer
  AccessOutput : Option Writer
  Security : Option SecurityConfig
  RateLimiters : RateLimiterConfig
  GrpcServerExtensions : List Nat
  RestServerExtensions : List Nat
  UnaryServerInterceptors : List UnaryServerInterceptor
  StreamServerInterceptors : List StreamServerInterceptor
  ServerOptions : List ServerOption

/-- Method `(c *ServerConfig) WithServerUnaryInterceptors(i ...)`: the receiver
pointer is `Option ServerConfig`; the returned pointer is the receiver, whose
pointee is the returned value. -/
def ServerConfig.WithServerUnaryInterceptors (c : Option ServerConfig)
    (i : List UnaryServerInterceptor) : Option ServerConfig :=
  match c with
  | none => none
  | some c =>
    some { c with UnaryServerInterceptors := c.UnaryServerInterceptors ++ i }

/-- Method `(c *ServerConfig) WithServerStreamInterceptors(i ...)`. -/
def ServerConfig.WithServerStreamInterceptors (c : Option ServerConfig)
    (i : List StreamServerInterceptor) : Option ServerConfig :=
  match c with
  | none => none
  | some c =>
    some { c with StreamServerInterceptors := c.StreamServerInterceptors ++ i }

/-- Method `(c *ServerConfig) WithServerOptions(opt ...)`. -/
def ServerConfig.WithServerOptions (c : Option ServerConfig)
    (opt : List ServerOption) : Option ServerConfig :=
  match c with
  | none => none
  | some c => some { c with ServerOptions := c.ServerOptions ++ opt }

/-- Method `(c *ServerConfig) WithRateLimiter(r)`. -/
def ServerConfig.WithRateLimiter (c : Option ServerConfig)
    (r : Option RateLimiter) : Option ServerConfig :=
  match c with
  | none => none
  | some c => some { c with RateLimiters := { c.RateLimiters with RateLimiter := r } }

/-- Method `(c *ServerConfig) WithRateLimiterPerUser(r)`. -/
def ServerConfig.WithRateLimiterPerUser (c : Option ServerConfig)
    (r : Option RateLimiter) : Option ServerConfig :=
  match c with
  | none => none
  | some c => some { c with RateLimiters := { c.RateLimiters with RateLimiterPerUser := r } }

/-! ## grpc_framework_server.go -/

/-- Modelled from the spec: the Lifecycle Guard is one exclusive/shared lock
(the field `lock sync.RWMutex`). Its mode is explicit state: whether the
exclusive holder is present, and how many shared holders there are. -/
structure RWMutex where
  writer : Bool
  readers : Nat
deriving DecidableEq, Repr

/-- Exclusive acquire. `none`: the caller cannot proceed (it blocks), because a
shared or exclusive holder is present. -/
def RWMutex.Lock (m : RWMutex) : Option RWMutex :=
  if m.writer = false ∧ m.readers = 0 then some { m with writer := true } else none

/-- Exclusive release. `none`: the lock is not held exclusively. -/
def RWMutex.Unlock (m : RWMutex) : Option RWMutex :=
  if m.writer = true then some { m with writer := false } else none

/-- Shared acquire. `none`: the caller cannot proceed (it blocks), because the
lock is held exclusively. -/
def RWMutex.RLock (m : RWMutex) : Option RWMutex :=
  if m.writer = true then none else some { m with readers := m.readers + 1 }

/-- Argument of `grpcserver.New`. -/
structure GrpcServerConfig where
  Name : String
  Net : String
  Address : String
deriving DecidableEq, Repr

/-- Handle of the `*grpcserver.GrpcServer` returned by `grpcserver.New`. -/
structure GrpcServer where
  id : Nat
deriving DecidableEq, Repr

/-- The `logrus.Entry` of a server: its `name` field. -/
structure LogEntry where
  name : String
deriving DecidableEq, Repr

structure GrpcFrameworkServer where
  GrpcServer : GrpcServer
  lock : RWMutex
  name : String
  config : ServerConfig
  log : LogEntry
  auditLogOutput : Option Writer
  accessLogOutput : Option Writer
  roleServer : Option RoleManager

/-- The closure `Start` passes to `StartWithServer`: it calls
`grpc.NewServer(opts...)`, then every extension on the new server, then
registers the metrics. The closure is determined by the options and the
extensions it captures. -/
structure ServerFactory where
  opts : List ServerOption
  extensions : List Nat
deriving DecidableEq, Repr

/-- A call on a collaborator. -/
inductive Event where
  | logInfo (msg : String)
  | grpcserverNew (cfg : GrpcServerConfig)
  | NewServerTLSFromFile (certFile keyFile : String)
  | StartWithServer (factory : ServerFactory)
deriving DecidableEq, Repr

/-- The collaborators: `grpcserver.New`, `credentials.NewServerTLSFromFile`
and `(*GrpcServer).StartWithServer` (`none` is the nil error). -/
structure Env where
  New : GrpcServerConfig → Except String GrpcServer
  NewServerTLSFromFile : String → String → Except String TransportCredentials
  StartWithServer : GrpcServer → ServerFactory → Option String

/-- Outcome of `NewGrpcFrameworkServer`: what it returns, the caller's
configuration after the call (the function writes `config.Net` through the
pointer), and the calls it made, in order. -/
structure NewRun where
  result : Outcome GrpcFrameworkServer
  config : Option ServerConfig
  trace : List Event

/-- The loop `for issuer, _ := range config.Security.Authenticators` of
`NewGrpcFrameworkServer`, over the entries still to visit: the calls it makes
and the error it returns from the function, if any. -/
def authenticationLoop (sec : SecurityConfig) :
    List (String × Authenticator) → List Event × Option String
  | [] => ([], none)
  | (issuer, _) :: rest =>
    let ev := Event.logInfo ("Authentication enabled for issuer: " ++ issuer)
    if sec.Role.isNone then
      ([ev], some "Must supply role manager when authentication enabled")
    else
      let r := authenticationLoop sec rest
      (ev :: r.1, r.2)

/-- New creates a new gRPC server for the gRPC framework. -/
def NewGrpcFrameworkServer (config : Option ServerConfig) (env : Env) : NewRun :=
  match config with
  | none => ⟨Outcome.error "Configuration must be provided", none, []⟩
  | some c =>
    -- Default to tcp
    let config : ServerConfig := if c.Net.length = 0 then { c with Net := "tcp" } else c
    let name := "grpc-framework-" ++ config.Net
    -- Setup authentication
    match config.Security with
    | none => ⟨Outcome.fault nilDereference, some config, []⟩
    | some sec =>
      match authenticationLoop sec (mapRange sec.Authenticators) with
      | (tr, some err) => ⟨Outcome.error err, some config, tr⟩
      | (tr, none) =>
        -- Create gRPC server
        let gcfg : GrpcServerConfig := ⟨name, config.Net, config.Address⟩
        match env.New gcfg with
        | Except.error err =>
          ⟨Outcome.error ("Unable to setup " ++ name ++ " server: " ++ err), some config,
            tr ++ [Event.grpcserverNew gcfg]⟩
        | Except.ok gServer =>
          ⟨Outcome.ok
            { GrpcServer := gServer
              lock := ⟨false, 0⟩
              name := name
              config := config
              log := ⟨name⟩
              auditLogOutput := config.AuditOutput
              accessLogOutput := config.AccessOutput
              roleServer := sec.Role },
            some config, tr ++ [Event.grpcserverNew gcfg]⟩

/-- A call made by `Start`, with the mode of the server's lock at the moment of the call. -/
structure Observed where
  event : Event
  guard : RWMutex
deriving DecidableEq, Repr

/-- Record a call made while the server is in state `s`. -/
def observe (s : GrpcFrameworkServer) (e : Event) : Observed :=
  ⟨e, s.lock⟩

/-- Outcome of `Start`: the returned error (`ok` is the nil error), the server
on return, and the calls made, in order. -/
structure StartRun where
  result : Outcome Unit
  server : GrpcFrameworkServer
  trace : List Observed

/-- The unary stages `Start` installs when auth is enabled. -/
def securityUnaryInterceptors : List UnaryServerInterceptor :=
  [ UnaryServerInterceptor.rwlockUnaryIntercepter,
    UnaryServerInterceptor.ContextUnaryServerInterceptor,
    UnaryServerInterceptor.grpcAuthUnaryServerInterceptor,
    UnaryServerInterceptor.authorizationServerUnaryInterceptor,
    UnaryServerInterceptor.loggerServerUnaryInterceptor,
    UnaryServerInterceptor.grpcPrometheusUnaryServerInterceptor ]

/-- The stream stages `Start` installs when auth is enabled. -/
def securityStreamInterceptors : List StreamServerInterceptor :=
  [ StreamServerInterceptor.rwlockStreamIntercepter,
    StreamServerInterceptor.grpcAuthStreamServerInterceptor,
    StreamServerInterceptor.authorizationServerStreamInterceptor,
    StreamServerInterceptor.loggerServerStreamInterceptor,
    StreamServerInterceptor.grpcPrometheusStreamServerInterceptor ]

/-- The unary stages `Start` installs when auth is not enabled. -/
def defaultUnaryInterceptors : List UnaryServerInterceptor :=
  [ UnaryServerInterceptor.rwlockUnaryIntercepter,
    UnaryServerInterceptor.ContextUnaryServerInterceptor,
    UnaryServerInterceptor.loggerServerUnaryInterceptor,
    UnaryServerInterceptor.grpcPrometheusUnaryServerInterceptor ]

/-- The stream stages `Start` installs when auth is not enabled. -/
def defaultStreamInterceptors : List StreamServerInterceptor :=
  [ StreamServerInterceptor.rwlockStreamIntercepter,
    StreamServerInterceptor.loggerServerStreamInterceptor,
    StreamServerInterceptor.grpcPrometheusStreamServerInterceptor ]

/-- Second part of `Start`, from "Add correlation interceptor" to the end: the
interceptor chains, the tap, and the transport. `opts` and `tr` are the options
and the calls accumulated by the first part. -/
def StartServe (s : GrpcFrameworkServer) (env : Env) (opts : List ServerOption)
    (tr : List Observed) : StartRun :=
  -- Setup authentication and authorization using interceptors if auth is enabled
  match s.config.Security with
  | none => ⟨Outcome.fault nilDereference, s, tr⟩
  | some sec =>
    let builtin : List UnaryServerInterceptor × List StreamServerInterceptor :=
      if mapLen sec.Authenticators ≠ 0 then
        (securityUnaryInterceptors, securityStreamInterceptors)
      else
        (defaultUnaryInterceptors, defaultStreamInterceptors)
    -- Append custom interceptors to the end of the chain
    let unaryInterceptors := builtin.1 ++ s.config.UnaryServerInterceptors
    let streamInterceptors := builtin.2 ++ s.config.StreamServerInterceptors
    let opts := opts ++ [ServerOption.UnaryInterceptor unaryInterceptors]
    let opts := opts ++ [ServerOption.StreamInterceptor streamInterceptors]
    -- Determine if we should add rate limiters
    let opts :=
      if s.config.RateLimiters.RateLimiter.isSome
          ∨ s.config.RateLimiters.RateLimiterPerUser.isSome then
        opts ++ [ServerOption.InTapHandle ServerInHandle.rateLimiter]
      else opts
    -- Start the gRPC Server
    let factory : ServerFactory := ⟨opts, s.config.GrpcServerExtensions⟩
    let tr := tr ++ [observe s (Event.StartWithServer factory)]
    match env.StartWithServer s.GrpcServer factory with
    | some err => ⟨Outcome.error err, s, tr⟩
    | none => ⟨Outcome.ok (), s, tr⟩

/-- Start is used to start the server. -/
def Start (s : GrpcFrameworkServer) (env : Env) : StartRun :=
  -- Setup https if certs have been provided
  let opts := s.config.ServerOptions
  if s.config.Net ≠ "unix" then
    match s.config.Security with
    | none => ⟨Outcome.fault nilDereference, s, []⟩
    | some sec =>
      match sec.Tls with
      | some tls =>
        let tr := [observe s (Event.NewServerTLSFromFile tls.CertFile tls.KeyFile)]
        match env.NewServerTLSFromFile tls.CertFile tls.KeyFile with
        | Except.error err =>
          ⟨Outcome.error ("Failed to create credentials from cert files: " ++ err), s, tr⟩
        | Except.ok creds =>
          StartServe s env (opts ++ [ServerOption.Creds creds])
            (tr ++ [observe s (Event.logInfo "TLS enabled")])
      | none => StartServe s env opts [observe s (Event.logInfo "TLS disabled")]
  else
    StartServe s env opts [observe s (Event.logInfo "TLS disabled")]

/-- Method `transactionStart`: `s.lock.Lock()`. `none`: the caller blocks. -/
def transactionStart (s : GrpcFrameworkServer) : Option GrpcFrameworkServer :=
  match s.lock.Lock with
  | none => none
  | some l => some { s with lock := l }

/-- Method `transactionEnd`: `s.lock.Unlock()`. `none`: the lock was not held exclusively. -/
def transactionEnd (s : GrpcFrameworkServer) : Option GrpcFrameworkServer :=
  match s.lock.Unlock with
  | none => none
  | some l => some { s with lock := l }

/-- Method `globalLimiterAllow`: the answer, and the server after the query
(the limiter has consumed one query if it was asked). -/
def globalLimiterAllow (s : GrpcFrameworkServer) : Bool × GrpcFrameworkServer :=
  -- Check if there is no limiter. If none, allow all
  match s.config.RateLimiters.RateLimiter with
  | none => (true, s)
  | some r =>
    let a := r.Allow
    (a.1, { s with config :=
      { s.config with RateLimiters := { s.config.RateLimiters with RateLimiter := some a.2 } } })

/-- A `context.Context` handle. -/
structure Context where
  id : Nat
deriving DecidableEq, Repr

/-- The gRPC status codes used here. -/
inductive Code where
  | OK
  | ResourceExhausted
deriving DecidableEq, Repr

/-- An error made by `status.Error(code, msg)`. -/
structure Status where
  code : Code
  message : String
deriving DecidableEq, Repr

/-- Method `rateLimiter(ctx, info)`, the tap handler: the returned pair
`(context.Context, error)`, and the server after the call. `info` is not read. -/
def rateLimiter (s : GrpcFrameworkServer) (ctx : Context) :
    (Option Context × Option Status) × GrpcFrameworkServer :=
  -- Check global limiter
  let a := globalLimiterAllow s
  if a.1 = false then
    ((none, some ⟨Code.ResourceExhausted, "resources for clients exhausted"⟩), a.2)
  else
    -- Check per user limiter: XXX TODO
    ((some ctx, none), a.2)

/-! ## Auxiliary definitions used to state and prove the properties -/

/-- The configuration after the step "Default to tcp" of `NewGrpcFrameworkServer`. -/
def defaultedConfig (c : ServerConfig) : ServerConfig :=
  if c.Net.length = 0 then { c with Net := "tcp" } else c

/-- The part of `NewGrpcFrameworkServer` after the step "Default to tcp", as a
function of the defaulted configuration. -/
def constructFrom (config : ServerConfig) (env : Env) : NewRun :=
  match config.Security with
  | none => ⟨Outcome.fault nilDereference, some config, []⟩
  | some sec =>
    match authenticationLoop sec (mapRange sec.Authenticators) with
    | (tr, some err) => ⟨Outcome.error err, some config, tr⟩
    | (tr, none) =>
      match env.New ⟨"grpc-framework-" ++ config.Net, config.Net, config.Address⟩ with
      | Except.error err =>
        ⟨Outcome.error ("Unable to setup " ++ ("grpc-framework-" ++ config.Net) ++ " server: " ++ err),
          some config,
          tr ++ [Event.grpcserverNew ⟨"grpc-framework-" ++ config.Net, config.Net, config.Address⟩]⟩
      | Except.ok gServer =>
        ⟨Outcome.ok
          { GrpcServer := gServer
            lock := ⟨false, 0⟩
            name := "grpc-framework-" ++ config.Net
            config := config
            log := ⟨"grpc-framework-" ++ config.Net⟩
            auditLogOutput := config.AuditOutput
            accessLogOutput := config.AccessOutput
            roleServer := sec.Role },
          some config,
          tr ++ [Event.grpcserverNew ⟨"grpc-framework-" ++ config.Net, config.Net, config.Address⟩]⟩

/-- The unary chain `Start` builds: the built-in stages chosen by whether an
authenticator is registered, followed by the caller's list. -/
def unaryChain (s : GrpcFrameworkServer) (sec : SecurityConfig) : List UnaryServerInterceptor :=
  (if mapLen sec.Authenticators ≠ 0 then securityUnaryInterceptors
    else defaultUnaryInterceptors) ++ s.config.UnaryServerInterceptors

/-- The stream chain `Start` builds. -/
def streamChain (s : GrpcFrameworkServer) (sec : SecurityConfig) :
    List StreamServerInterceptor :=
  (if mapLen sec.Authenticators ≠ 0 then securityStreamInterceptors
    else defaultStreamInterceptors) ++ s.config.StreamServerInterceptors

/-- The two interceptor options `Start` appends. -/
def chainOptions (s : GrpcFrameworkServer) (sec : SecurityConfig) : List ServerOption :=
  [ ServerOption.UnaryInterceptor (unaryChain s sec),
    ServerOption.StreamInterceptor (streamChain s sec) ]

/-- The tap option `Start` appends, if any. -/
def tapOptions (s : GrpcFrameworkServer) : List ServerOption :=
  if s.config.RateLimiters.RateLimiter.isSome
      ∨ s.config.RateLimiters.RateLimiterPerUser.isSome then
    [ServerOption.InTapHandle ServerInHandle.rateLimiter]
  else []

/-- The error `Start` returns for what `StartWithServer` returned. -/
def startResult : Option String → Outcome Unit
  | some err => Outcome.error err
  | none => Outcome.ok ()

/-- The zero value `ServerConfig{}`. -/
def zeroServerConfig : ServerConfig :=
  { Name := ""
    Net := ""
    Address := ""
    RestConfig := ⟨false, "", ⟨false, none⟩, ⟨false, ""⟩⟩
    Socket := ""
    AuditOutput := none
    AccessOutput := none
    Security := none
    RateLimiters := ⟨none, none⟩
    GrpcServerExtensions := []
    RestServerExtensions := []
    UnaryServerInterceptors := []
    StreamServerInterceptors := []
    ServerOptions := [] }

/-- A server as `NewGrpcFrameworkServer` builds it around a configuration. -/
def serverWith (config : ServerConfig) : GrpcFrameworkServer :=
  { GrpcServer := ⟨0⟩
    lock := ⟨false, 0⟩
    name := "grpc-framework-" ++ config.Net
    config := config
    log := ⟨"grpc-framework-" ++ config.Net⟩
    auditLogOutput := config.AuditOutput
    accessLogOutput := config.AccessOutput
    roleServer := none }

/-- Collaborators that all succeed. -/
def okEnv : Env :=
  ⟨fun _ => Except.ok ⟨0⟩, fun _ _ => Except.ok ⟨7⟩, fun _ _ => none⟩

/-- Collaborators of which the TLS file loader fails. -/
def badTlsEnv : Env :=
  ⟨fun _ => Except.ok ⟨0⟩, fun _ _ => Except.error "open cert.pem: no such file", fun _ _ => none⟩

/-- A security section with one authenticator, for issuer "iss-a", and a role manager. -/
def authSecurity : SecurityConfig :=
  ⟨some ⟨1⟩, none, some [("iss-a", ⟨1⟩)]⟩

/-- A security section with no authenticator, no role manager and no TLS. -/
def plainSecurity : SecurityConfig :=
  ⟨none, none, none⟩

/-- A server with authentication and one extension interceptor of each kind. -/
def authServer : GrpcFrameworkServer :=
  serverWith { zeroServerConfig with
    Net := "tcp"
    Security := some authSecurity
    UnaryServerInterceptors := [UnaryServerInterceptor.custom 1]
    StreamServerInterceptors := [StreamServerInterceptor.custom 2] }

/-- A server without authentication and with one unary extension interceptor. -/
def plainServer : GrpcFrameworkServer :=
  serverWith { zeroServerConfig with
    Net := "tcp"
    Security := some plainSecurity
    UnaryServerInterceptors := [UnaryServerInterceptor.custom 1] }

/-- A server with a TLS cert/key pair on a tcp transport. -/
def tlsServer : GrpcFrameworkServer :=
  serverWith { zeroServerConfig with
    Net := "tcp"
    Security := some ⟨none, some ⟨"cert.pem", "key.pem"⟩, none⟩ }

/-- A server whose global limiter denies every query. -/
def exhaustedServer : GrpcFrameworkServer :=
  serverWith { zeroServerConfig with
    Net := "tcp"
    Security := some plainSecurity
    RateLimiters := ⟨some ⟨fun _ => false, 0⟩, none⟩ }

/-- A configuration with an authenticator for issuer "iss-a" and no role manager. -/
def noRoleConfig : ServerConfig :=
  { zeroServerConfig with Security := some ⟨none, none, some [("iss-a", ⟨1⟩)]⟩ }

/-- A configuration with a present, empty security section and no transport kind. -/
def plainConfig : ServerConfig :=
  { zeroServerConfig with Address := ":9009", Security := some plainSecurity }

/-- The configuration `ServerConfig{Address: ":9009"}`: an address, no transport
kind, and the security section not set. -/
def addressOnlyConfig : ServerConfig :=
  { zeroServerConfig with Address := ":9009" }

/-- The configuration `ServerConfig{Net: "unix", Address: "/tmp/fw.sock"}`, the
security section not set. -/
def unixSocketConfig : ServerConfig :=
  { zeroServerConfig with Net := "unix", Address := "/tmp/fw.sock" }

/-! ## Registration of extension interceptors -/

/-- C9: on a non-nil config, WithServerUnaryInterceptors returns the config with
UnaryServerInterceptors equal to the previous list followed by the arguments,
in order, and every other field unchanged; calling it with `a` and then `b`
gives `old ++ a ++ b`; WithServerStreamInterceptors does the same for
StreamServerInterceptors; on a nil config both return nil. -/
theorem WithServerInterceptors_append_in_order (c : ServerConfig)
    (a b : List UnaryServerInterceptor) (x y : List StreamServerInterceptor) :
    (∃ c1, ServerConfig.WithServerUnaryInterceptors (some c) a = some c1
      ∧ c1.UnaryServerInterceptors = c.UnaryServerInterceptors ++ a
      ∧ c1.Name = c.Name ∧ c1.Net = c.Net ∧ c1.Address = c.Address
      ∧ c1.RestConfig = c.RestConfig ∧ c1.Socket = c.Socket
      ∧ c1.AuditOutput = c.AuditOutput ∧ c1.AccessOutput = c.AccessOutput
      ∧ c1.Security = c.Security ∧ c1.RateLimiters = c.RateLimiters
      ∧ c1.GrpcServerExtensions = c.GrpcServerExtensions
      ∧ c1.RestServerExtensions = c.RestServerExtensions
      ∧ c1.StreamServerInterceptors = c.StreamServerInterceptors
      ∧ c1.ServerOptions = c.ServerOptions)
    ∧ (∃ c2, ServerConfig.WithServerUnaryInterceptors
          (ServerConfig.WithServerUnaryInterceptors (some c) a) b = some c2
      ∧ c2.UnaryServerInterceptors = c.UnaryServerInterceptors ++ a ++ b)
    ∧ (∃ c3, ServerConfig.WithServerStreamInterceptors (some c) x = some c3
      ∧ c3.StreamServerInterceptors = c.StreamServerInterceptors ++ x
      ∧ c3.Name = c.Name ∧ c3.Net = c.Net ∧ c3.Address = c.Address
      ∧ c3.RestConfig = c.RestConfig ∧ c3.Socket = c.Socket
      ∧ c3.AuditOutput = c.AuditOutput ∧ c3.AccessOutput = c.AccessOutput
      ∧ c3.Security = c.Security ∧ c3.RateLimiters = c.RateLimiters
      ∧ c3.GrpcServerExtensions = c.GrpcServerExtensions
      ∧ c3.RestServerExtensions = c.RestServerExtensions
      ∧ c3.UnaryServerInterceptors = c.UnaryServerInterceptors
      ∧ c3.ServerOptions = c.ServerOptions)
    ∧ (∃ c4, ServerConfig.WithServerStreamInterceptors
          (ServerConfig.WithServerStreamInterceptors (some c) x) y = some c4
      ∧ c4.StreamServerInterceptors = c.StreamServerInterceptors ++ x ++ y)
    ∧ ServerConfig.WithServerUnaryInterceptors none a = none
    ∧ ServerConfig.WithServerStreamInterceptors none x = none := by
  refine ⟨⟨_, rfl, rfl, rfl, rfl, rfl, rfl, rfl, rfl, rfl, rfl, rfl, rfl, rfl, rfl, rfl⟩,
    ⟨_, rfl, rfl⟩,
    ⟨_, rfl, rfl, rfl, rfl, rfl, rfl, rfl, rfl, rfl, rfl, rfl, rfl, rfl, rfl, rfl⟩,
    ⟨_, rfl, rfl⟩, rfl, rfl⟩

/-! ## The admission gate -/

/-- C3: rateLimiter rejects (no context, a ResourceExhausted status error) if
and only if a global RateLimiter is configured and its Allow() answers false;
otherwise it returns the input context and no error. A configured global
limiter is queried exactly once by a call (its query count goes up by one), no
limiter is touched when none is configured, and neither the result nor the
global limiter depends on the per-user limiter, which is never queried. -/
theorem rateLimiter_rejects_iff_global_denies (s : GrpcFrameworkServer) (ctx : Context) :
    ((rateLimiter s ctx).1
        = (none, some ⟨Code.ResourceExhausted, "resources for clients exhausted"⟩)
      ↔ ∃ r, s.config.RateLimiters.RateLimiter = some r ∧ r.Allow.1 = false)
    ∧ ((¬ ∃ r, s.config.RateLimiters.RateLimiter = some r ∧ r.Allow.1 = false)
      → (rateLimiter s ctx).1 = (some ctx, none))
    ∧ (∀ r, s.config.RateLimiters.RateLimiter = some r →
        (rateLimiter s ctx).2.config.RateLimiters.RateLimiter
          = some ⟨r.answers, r.calls + 1⟩)
    ∧ (s.config.RateLimiters.RateLimiter = none →
        (rateLimiter s ctx).2.config.RateLimiters.RateLimiter = none)
    ∧ (rateLimiter s ctx).2.config.RateLimiters.RateLimiterPerUser
        = s.config.RateLimiters.RateLimiterPerUser
    ∧ (∀ p : Option RateLimiter,
        (rateLimiter { s with config := { s.config with RateLimiters :=
            { s.config.RateLimiters with RateLimiterPerUser := p } } } ctx).1
          = (rateLimiter s ctx).1
        ∧ (rateLimiter { s with config := { s.config with RateLimiters :=
            { s.config.RateLimiters with RateLimiterPerUser := p } } } ctx).2.config.RateLimiters.RateLimiter
          = (rateLimiter s ctx).2.config.RateLimiters.RateLimiter) := by
  cases hr : s.config.RateLimiters.RateLimiter with
  | none =>
    simp [rateLimiter, globalLimiterAllow, hr]
  | some r =>
    cases ha : r.answers r.calls <;>
      simp [rateLimiter, globalLimiterAllow, hr, RateLimiter.Allow, ha]

/-- C3 at a server whose global limiter answers false: the call is rejected
with ResourceExhausted, and the limiter has been queried once. -/
theorem rateLimiter_rejects_iff_global_denies_witness :
    (rateLimiter exhaustedServer ⟨5⟩).1
        = (none, some ⟨Code.ResourceExhausted, "resources for clients exhausted"⟩)
    ∧ (rateLimiter exhaustedServer ⟨5⟩).2.config.RateLimiters.RateLimiter
        = some ⟨fun _ => false, 0 + 1⟩ :=
  ⟨(rateLimiter_rejects_iff_global_denies exhaustedServer ⟨5⟩).1.mpr
      ⟨⟨fun _ => false, 0⟩, rfl, rfl⟩,
    (rateLimiter_rejects_iff_global_denies exhaustedServer ⟨5⟩).2.2.1
      ⟨fun _ => false, 0⟩ rfl⟩

/-! ## Construction -/

theorem string_length_eq_zero_iff (s : String) : s.length = 0 ↔ s = "" := by
  constructor
  · intro h
    have hd : s.data = [] := List.length_eq_zero.mp h
    exact String.ext hd
  · intro h
    subst h
    rfl

theorem unable_to_setup_ne_role_error (name err : String) :
    "Unable to setup " ++ name ++ " server: " ++ err
      ≠ "Must supply role manager when authentication enabled" := by
  intro h
  have h2 := congrArg String.data h
  simp only [String.data_append] at h2
  have h3 := congrArg List.head? h2
  simp at h3

theorem mapLen_eq_zero_iff {α : Type} (m : Option (List α)) :
    mapLen m = 0 ↔ mapRange m = [] := by
  cases m with
  | none => simp [mapLen, mapRange]
  | some l => simp [mapLen, mapRange]

theorem authenticationLoop_without_role (sec : SecurityConfig) (hrole : sec.Role = none)
    (issuer : String) (a : Authenticator) (rest : List (String × Authenticator)) :
    authenticationLoop sec ((issuer, a) :: rest)
      = ([Event.logInfo ("Authentication enabled for issuer: " ++ issuer)],
          some "Must supply role manager when authentication enabled") := by
  simp [authenticationLoop, hrole]

theorem authenticationLoop_with_role (sec : SecurityConfig) (hrole : sec.Role ≠ none)
    (l : List (String × Authenticator)) :
    authenticationLoop sec l
      = (l.map (fun e => Event.logInfo ("Authentication enabled for issuer: " ++ e.1)), none) := by
  induction l with
  | nil => rfl
  | cons e rest ih =>
    obtain ⟨issuer, a⟩ := e
    have hsome : sec.Role.isNone = false := by
      cases h : sec.Role with
      | none => exact absurd h hrole
      | some r => rfl
    simp [authenticationLoop, hsome, ih]

theorem authenticationLoop_valid (sec : SecurityConfig)
    (hvalid : mapLen sec.Authenticators = 0 ∨ sec.Role ≠ none) :
    authenticationLoop sec (mapRange sec.Authenticators)
      = ((mapRange sec.Authenticators).map
          (fun e => Event.logInfo ("Authentication enabled for issuer: " ++ e.1)), none) := by
  rcases hvalid with h | h
  · rw [(mapLen_eq_zero_iff _).mp h]
    rfl
  · exact authenticationLoop_with_role sec h _

theorem authenticationLoop_invalid (sec : SecurityConfig)
    (hauth : mapLen sec.Authenticators ≠ 0) (hrole : sec.Role = none) :
    ∃ issuer, authenticationLoop sec (mapRange sec.Authenticators)
      = ([Event.logInfo ("Authentication enabled for issuer: " ++ issuer)],
          some "Must supply role manager when authentication enabled") := by
  have hne : mapRange sec.Authenticators ≠ [] := fun h => hauth ((mapLen_eq_zero_iff _).mpr h)
  cases hl : mapRange sec.Authenticators with
  | nil => exact absurd hl hne
  | cons e rest =>
    obtain ⟨issuer, a⟩ := e
    exact ⟨issuer, authenticationLoop_without_role sec hrole issuer a rest⟩

theorem NewGrpcFrameworkServer_some (c : ServerConfig) (env : Env) :
    NewGrpcFrameworkServer (some c) env = constructFrom (defaultedConfig c) env := rfl

theorem defaultedConfig_Security (c : ServerConfig) :
    (defaultedConfig c).Security = c.Security := by
  unfold defaultedConfig
  split <;> rfl

theorem defaultedConfig_Address (c : ServerConfig) :
    (defaultedConfig c).Address = c.Address := by
  unfold defaultedConfig
  split <;> rfl

theorem defaultedConfig_Net (c : ServerConfig) :
    (defaultedConfig c).Net = if c.Net = "" then "tcp" else c.Net := by
  unfold defaultedConfig
  by_cases h : c.Net = ""
  · simp [h]
  · have h2 : c.Net.length ≠ 0 := fun hl => h ((string_length_eq_zero_iff _).mp hl)
    simp [h, h2]

theorem constructFrom_invalid (k : ServerConfig) (env : Env) (sec : SecurityConfig)
    (hsec : k.Security = some sec) (hauth : mapLen sec.Authenticators ≠ 0)
    (hrole : sec.Role = none) :
    ∃ issuer, constructFrom k env
      = ⟨Outcome.error "Must supply role manager when authentication enabled", some k,
          [Event.logInfo ("Authentication enabled for issuer: " ++ issuer)]⟩ := by
  obtain ⟨issuer, hloop⟩ := authenticationLoop_invalid sec hauth hrole
  refine ⟨issuer, ?_⟩
  simp only [constructFrom, hsec, hloop]

theorem constructFrom_valid (k : ServerConfig) (env : Env) (sec : SecurityConfig)
    (hsec : k.Security = some sec)
    (hvalid : mapLen sec.Authenticators = 0 ∨ sec.Role ≠ none) :
    constructFrom k env
      = match env.New ⟨"grpc-framework-" ++ k.Net, k.Net, k.Address⟩ with
        | Except.error err =>
          ⟨Outcome.error ("Unable to setup " ++ ("grpc-framework-" ++ k.Net) ++ " server: " ++ err),
            some k,
            (mapRange sec.Authenticators).map
                (fun e => Event.logInfo ("Authentication enabled for issuer: " ++ e.1))
              ++ [Event.grpcserverNew ⟨"grpc-framework-" ++ k.Net, k.Net, k.Address⟩]⟩
        | Except.ok gServer =>
          ⟨Outcome.ok
            { GrpcServer := gServer
              lock := ⟨false, 0⟩
              name := "grpc-framework-" ++ k.Net
              config := k
              log := ⟨"grpc-framework-" ++ k.Net⟩
              auditLogOutput := k.AuditOutput
              accessLogOutput := k.AccessOutput
              roleServer := sec.Role },
            some k,
            (mapRange sec.Authenticators).map
                (fun e => Event.logInfo ("Authentication enabled for issuer: " ++ e.1))
              ++ [Event.grpcserverNew ⟨"grpc-framework-" ++ k.Net, k.Net, k.Address⟩]⟩ := by
  have hloop := authenticationLoop_valid sec hvalid
  simp only [constructFrom, hsec, hloop]

/-- C4: for a non-nil configuration whose security section is present, with at
least one authenticator and no role manager, NewGrpcFrameworkServer returns the
role-manager error and no server, and its calls do not include grpcserver.New.
Conversely, with zero authenticators or with a role manager, the result is
never the role-manager error and grpcserver.New is called. -/
theorem NewGrpcFrameworkServer_requires_role_manager (c : ServerConfig) (env : Env)
    (sec : SecurityConfig) (hsec : c.Security = some sec) :
    (mapLen sec.Authenticators ≠ 0 ∧ sec.Role = none →
      (NewGrpcFrameworkServer (some c) env).result
          = Outcome.error "Must supply role manager when authentication enabled"
        ∧ ∀ e ∈ (NewGrpcFrameworkServer (some c) env).trace,
            ∀ g, e ≠ Event.grpcserverNew g)
    ∧ (mapLen sec.Authenticators = 0 ∨ sec.Role ≠ none →
      (NewGrpcFrameworkServer (some c) env).result
          ≠ Outcome.error "Must supply role manager when authentication enabled"
        ∧ ∃ g, Event.grpcserverNew g ∈ (NewGrpcFrameworkServer (some c) env).trace) := by
  have hk : (defaultedConfig c).Security = some sec := by
    rw [defaultedConfig_Security, hsec]
  rw [NewGrpcFrameworkServer_some]
  constructor
  · rintro ⟨hauth, hrole⟩
    obtain ⟨issuer, h⟩ := constructFrom_invalid _ env sec hk hauth hrole
    rw [h]
    simp
  · intro hvalid
    rw [constructFrom_valid _ env sec hk hvalid]
    split
    · refine ⟨?_, _, List.mem_append_right _ (List.mem_singleton_self _)⟩
      intro h
      injection h with h
      exact unable_to_setup_ne_role_error _ _ h
    · refine ⟨?_, _, List.mem_append_right _ (List.mem_singleton_self _)⟩
      intro h
      cases h

/-- C4 at a configuration with one authenticator and no role manager: the
role-manager error, and no call of grpcserver.New. -/
theorem NewGrpcFrameworkServer_requires_role_manager_witness :
    (NewGrpcFrameworkServer (some noRoleConfig) okEnv).result
        = Outcome.error "Must supply role manager when authentication enabled"
    ∧ ∀ e ∈ (NewGrpcFrameworkServer (some noRoleConfig) okEnv).trace,
        ∀ g, e ≠ Event.grpcserverNew g :=
  (NewGrpcFrameworkServer_requires_role_manager noRoleConfig okEnv
    ⟨none, none, some [("iss-a", ⟨1⟩)]⟩ rfl).1 ⟨by decide, rfl⟩

/-- Net defaulting where the security section is present: a nil configuration
is rejected with an error, no server and no call. For a non-nil configuration
with a security section that passes the role-manager check, with `net` the
configured Net, or "tcp" when that is empty: the caller's configuration has
Net = net and its Address unchanged; grpcserver.New is called with the name
"grpc-framework-" followed by net, with net, and with the configured Address;
if that call succeeds the server has that name, Net = net and the configured
Address, and if it fails the error is returned and no server. -/
theorem NewGrpcFrameworkServer_defaults_net (c : ServerConfig) (env : Env)
    (sec : SecurityConfig) (hsec : c.Security = some sec)
    (hvalid : mapLen sec.Authenticators = 0 ∨ sec.Role ≠ none) :
    ((NewGrpcFrameworkServer none env).result = Outcome.error "Configuration must be provided"
      ∧ (NewGrpcFrameworkServer none env).trace = [])
    ∧ (∃ c1, (NewGrpcFrameworkServer (some c) env).config = some c1
        ∧ c1.Net = (if c.Net = "" then "tcp" else c.Net) ∧ c1.Address = c.Address)
    ∧ Event.grpcserverNew
          ⟨"grpc-framework-" ++ (if c.Net = "" then "tcp" else c.Net),
            (if c.Net = "" then "tcp" else c.Net), c.Address⟩
        ∈ (NewGrpcFrameworkServer (some c) env).trace
    ∧ (∀ g, env.New ⟨"grpc-framework-" ++ (if c.Net = "" then "tcp" else c.Net),
            (if c.Net = "" then "tcp" else c.Net), c.Address⟩ = Except.ok g →
        ∃ srv, (NewGrpcFrameworkServer (some c) env).result = Outcome.ok srv
          ∧ srv.GrpcServer = g
          ∧ srv.name = "grpc-framework-" ++ (if c.Net = "" then "tcp" else c.Net)
          ∧ srv.config.Net = (if c.Net = "" then "tcp" else c.Net)
          ∧ srv.config.Address = c.Address)
    ∧ (∀ err, env.New ⟨"grpc-framework-" ++ (if c.Net = "" then "tcp" else c.Net),
            (if c.Net = "" then "tcp" else c.Net), c.Address⟩ = Except.error err →
        (NewGrpcFrameworkServer (some c) env).result
          = Outcome.error ("Unable to setup "
              ++ ("grpc-framework-" ++ (if c.Net = "" then "tcp" else c.Net))
              ++ " server: " ++ err)) := by
  have hk : (defaultedConfig c).Security = some sec := by
    rw [defaultedConfig_Security, hsec]
  have hrun := constructFrom_valid (defaultedConfig c) env sec hk hvalid
  rw [defaultedConfig_Net, defaultedConfig_Address] at hrun
  rw [NewGrpcFrameworkServer_some, hrun]
  refine ⟨⟨rfl, rfl⟩, ?_, ?_, ?_, ?_⟩
  · refine ⟨defaultedConfig c, ?_, defaultedConfig_Net c, defaultedConfig_Address c⟩
    split <;> rfl
  · split <;> exact List.mem_append_right _ (List.mem_singleton_self _)
  · intro g hg
    rw [hg]
    exact ⟨_, rfl, rfl, rfl, defaultedConfig_Net c, defaultedConfig_Address c⟩
  · intro err herr
    rw [herr]

/-- Net defaulting at a configuration with a present security section, an empty
Net and Address ":9009": the server is named "grpc-framework-tcp" and keeps the
address. -/
theorem NewGrpcFrameworkServer_defaults_net_witness :
    ∃ srv, (NewGrpcFrameworkServer (some plainConfig) okEnv).result = Outcome.ok srv
      ∧ srv.GrpcServer = ⟨0⟩
      ∧ srv.name = "grpc-framework-" ++ (if plainConfig.Net = "" then "tcp" else plainConfig.Net)
      ∧ srv.config.Net = (if plainConfig.Net = "" then "tcp" else plainConfig.Net)
      ∧ srv.config.Address = plainConfig.Address :=
  (NewGrpcFrameworkServer_defaults_net plainConfig okEnv plainSecurity rfl
    (Or.inl rfl)).2.2.2.1 ⟨0⟩ rfl

/-- C10 fails on the code where the security section is not set: for the
configurations `ServerConfig{Address: ":9009"}` (empty Net) and
`ServerConfig{Net: "unix", Address: "/tmp/fw.sock"}`, whatever the collaborators
do, NewGrpcFrameworkServer writes the defaulted Net into the caller's
configuration and then faults with a nil pointer dereference: it returns no
server, so none named "grpc-framework-tcp" or "grpc-framework-unix", and it
never calls grpcserver.New, so the Address is passed to no transport. -/
theorem NewGrpcFrameworkServer_net_default_faults_without_security (env : Env) :
    (NewGrpcFrameworkServer (some addressOnlyConfig) env).result
        = Outcome.fault nilDereference
    ∧ (∀ srv, (NewGrpcFrameworkServer (some addressOnlyConfig) env).result ≠ Outcome.ok srv)
    ∧ (∀ e ∈ (NewGrpcFrameworkServer (some addressOnlyConfig) env).trace,
        ∀ g, e ≠ Event.grpcserverNew g)
    ∧ (NewGrpcFrameworkServer (some addressOnlyConfig) env).config
        = some { addressOnlyConfig with Net := "tcp" }
    ∧ (NewGrpcFrameworkServer (some unixSocketConfig) env).result
        = Outcome.fault nilDereference
    ∧ (∀ srv, (NewGrpcFrameworkServer (some unixSocketConfig) env).result ≠ Outcome.ok srv)
    ∧ (∀ e ∈ (NewGrpcFrameworkServer (some unixSocketConfig) env).trace,
        ∀ g, e ≠ Event.grpcserverNew g)
    ∧ (NewGrpcFrameworkServer (some unixSocketConfig) env).config
        = some unixSocketConfig := by
  have h1 : NewGrpcFrameworkServer (some addressOnlyConfig) env
      = ⟨Outcome.fault nilDereference, some { addressOnlyConfig with Net := "tcp" }, []⟩ := rfl
  have h2 : NewGrpcFrameworkServer (some unixSocketConfig) env
      = ⟨Outcome.fault nilDereference, some unixSocketConfig, []⟩ := rfl
  rw [h1, h2]
  refine ⟨rfl, ?_, ?_, rfl, rfl, ?_, ?_, rfl⟩
  · intro srv h
    cases h
  · intro e he
    cases he
  · intro srv h
    cases h
  · intro e he
    cases he

/-- C6 fails on the code: for the zero-value configuration, whose Security
pointer is nil, NewGrpcFrameworkServer faults with a nil pointer dereference
whatever the collaborators do (it has already written Net = "tcp" into the
caller's configuration), and Start on a server holding such a configuration
faults as well, for a tcp and for a unix transport. -/
theorem NewGrpcFrameworkServer_faults_on_nil_security (env : Env) :
    (NewGrpcFrameworkServer (some zeroServerConfig) env).result
        = Outcome.fault nilDereference
    ∧ (NewGrpcFrameworkServer (some zeroServerConfig) env).trace = []
    ∧ (NewGrpcFrameworkServer (some zeroServerConfig) env).config
        = some { zeroServerConfig with Net := "tcp" }
    ∧ (Start (serverWith { zeroServerConfig with Net := "tcp" }) env).result
        = Outcome.fault nilDereference
    ∧ (Start (serverWith { zeroServerConfig with Net := "unix" }) env).result
        = Outcome.fault nilDereference :=
  ⟨rfl, rfl, rfl, rfl, rfl⟩

/-! ## Start -/

theorem StartServe_eq (s : GrpcFrameworkServer) (env : Env) (opts : List ServerOption)
    (tr : List Observed) (sec : SecurityConfig) (hsec : s.config.Security = some sec) :
    StartServe s env opts tr
      = ⟨startResult (env.StartWithServer s.GrpcServer
            ⟨opts ++ chainOptions s sec ++ tapOptions s, s.config.GrpcServerExtensions⟩),
          s,
          tr ++ [observe s (Event.StartWithServer
            ⟨opts ++ chainOptions s sec ++ tapOptions s, s.config.GrpcServerExtensions⟩)]⟩ := by
  have hopts : (if s.config.RateLimiters.RateLimiter.isSome
          ∨ s.config.RateLimiters.RateLimiterPerUser.isSome then
        opts ++ [ServerOption.UnaryInterceptor
            ((if mapLen sec.Authenticators ≠ 0 then
              (securityUnaryInterceptors, securityStreamInterceptors)
              else (defaultUnaryInterceptors, defaultStreamInterceptors)).1
              ++ s.config.UnaryServerInterceptors)]
          ++ [ServerOption.StreamInterceptor
            ((if mapLen sec.Authenticators ≠ 0 then
              (securityUnaryInterceptors, securityStreamInterceptors)
              else (defaultUnaryInterceptors, defaultStreamInterceptors)).2
              ++ s.config.StreamServerInterceptors)]
          ++ [ServerOption.InTapHandle ServerInHandle.rateLimiter]
      else
        opts ++ [ServerOption.UnaryInterceptor
            ((if mapLen sec.Authenticators ≠ 0 then
              (securityUnaryInterceptors, securityStreamInterceptors)
              else (defaultUnaryInterceptors, defaultStreamInterceptors)).1
              ++ s.config.UnaryServerInterceptors)]
          ++ [ServerOption.StreamInterceptor
            ((if mapLen sec.Authenticators ≠ 0 then
              (securityUnaryInterceptors, securityStreamInterceptors)
              else (defaultUnaryInterceptors, defaultStreamInterceptors)).2
              ++ s.config.StreamServerInterceptors)])
      = opts ++ chainOptions s sec ++ tapOptions s := by
    unfold chainOptions tapOptions unaryChain streamChain
    by_cases ha : mapLen sec.Authenticators ≠ 0 <;>
      by_cases ht : (s.config.RateLimiters.RateLimiter.isSome
          ∨ s.config.RateLimiters.RateLimiterPerUser.isSome) <;>
      simp [ha, ht]
  simp only [StartServe, hsec]
  rw [hopts]
  cases env.StartWithServer s.GrpcServer
      ⟨opts ++ chainOptions s sec ++ tapOptions s, s.config.GrpcServerExtensions⟩ <;> rfl

/-- The four ways `Start` can run on a server whose security section is present. -/
theorem Start_cases (s : GrpcFrameworkServer) (env : Env) (sec : SecurityConfig)
    (hsec : s.config.Security = some sec) :
    (∃ tls err, s.config.Net ≠ "unix" ∧ sec.Tls = some tls
        ∧ env.NewServerTLSFromFile tls.CertFile tls.KeyFile = Except.error err
        ∧ Start s env
          = ⟨Outcome.error ("Failed to create credentials from cert files: " ++ err), s,
              [observe s (Event.NewServerTLSFromFile tls.CertFile tls.KeyFile)]⟩)
    ∨ (∃ tls creds, s.config.Net ≠ "unix" ∧ sec.Tls = some tls
        ∧ env.NewServerTLSFromFile tls.CertFile tls.KeyFile = Except.ok creds
        ∧ Start s env
          = ⟨startResult (env.StartWithServer s.GrpcServer
                ⟨s.config.ServerOptions ++ [ServerOption.Creds creds] ++ chainOptions s sec
                  ++ tapOptions s, s.config.GrpcServerExtensions⟩),
              s,
              [observe s (Event.NewServerTLSFromFile tls.CertFile tls.KeyFile),
                observe s (Event.logInfo "TLS enabled"),
                observe s (Event.StartWithServer
                  ⟨s.config.ServerOptions ++ [ServerOption.Creds creds] ++ chainOptions s sec
                    ++ tapOptions s, s.config.GrpcServerExtensions⟩)]⟩)
    ∨ ((s.config.Net = "unix" ∨ sec.Tls = none)
        ∧ Start s env
          = ⟨startResult (env.StartWithServer s.GrpcServer
                ⟨s.config.ServerOptions ++ chainOptions s sec ++ tapOptions s,
                  s.config.GrpcServerExtensions⟩),
              s,
              [observe s (Event.logInfo "TLS disabled"),
                observe s (Event.StartWithServer
                  ⟨s.config.ServerOptions ++ chainOptions s sec ++ tapOptions s,
                    s.config.GrpcServerExtensions⟩)]⟩) := by
  by_cases hnet : s.config.Net = "unix"
  · right; right
    refine ⟨Or.inl hnet, ?_⟩
    simp only [Start, hnet, ne_eq, not_true_eq_false, if_false]
    rw [StartServe_eq s env _ _ sec hsec]
    rfl
  · cases htls : sec.Tls with
    | none =>
      right; right
      refine ⟨Or.inr rfl, ?_⟩
      simp only [Start, hnet, ne_eq, not_false_eq_true, if_true, hsec, htls]
      rw [StartServe_eq s env _ _ sec hsec]
      rfl
    | some tls =>
      cases hload : env.NewServerTLSFromFile tls.CertFile tls.KeyFile with
      | error err =>
        left
        refine ⟨tls, err, hnet, rfl, hload, ?_⟩
        simp only [Start, hnet, ne_eq, not_false_eq_true, if_true, hsec, htls, hload]
      | ok creds =>
        right; left
        refine ⟨tls, creds, hnet, rfl, hload, ?_⟩
        simp only [Start, hnet, ne_eq, not_false_eq_true, if_true, hsec, htls, hload]
        rw [StartServe_eq s env _ _ sec hsec]
        rfl

theorem tapOptions_only_tap (s : GrpcFrameworkServer) :
    ∀ x ∈ tapOptions s, x = ServerOption.InTapHandle ServerInHandle.rateLimiter := by
  intro x hx
  unfold tapOptions at hx
  split at hx
  · simpa using hx
  · simp at hx

/-- Every `StartWithServer` call of `Start` carries the caller's options, at
most one credentials option, the two chain options and the tap options, in
that order. -/
theorem Start_factory_shape (s : GrpcFrameworkServer) (env : Env) (sec : SecurityConfig)
    (hsec : s.config.Security = some sec) :
    ∀ o ∈ (Start s env).trace, ∀ f, o.event = Event.StartWithServer f →
      ∃ credsPart, f.opts = s.config.ServerOptions ++ credsPart ++ chainOptions s sec
          ++ tapOptions s
        ∧ (∀ x ∈ credsPart, ∃ c, x = ServerOption.Creds c) := by
  intro o ho f hf
  rcases Start_cases s env sec hsec with ⟨tls, err, _, _, _, h⟩ | ⟨tls, creds, _, _, _, h⟩ | ⟨_, h⟩
  · rw [h] at ho
    simp only [List.mem_singleton] at ho
    subst ho
    simp [observe] at hf
  · rw [h] at ho
    simp only [List.mem_cons, List.mem_singleton, List.not_mem_nil, or_false] at ho
    rcases ho with ho | ho | ho <;> subst ho <;> simp [observe] at hf
    subst hf
    exact ⟨[ServerOption.Creds creds], by simp, by simp⟩
  · rw [h] at ho
    simp only [List.mem_cons, List.mem_singleton, List.not_mem_nil, or_false] at ho
    rcases ho with ho | ho <;> subst ho <;> simp [observe] at hf
    subst hf
    exact ⟨[], by simp, by simp⟩

/-- Unless the TLS load fails, `Start` calls `StartWithServer`. -/
theorem Start_reaches_transport (s : GrpcFrameworkServer) (env : Env) (sec : SecurityConfig)
    (hsec : s.config.Security = some sec)
    (htls : ∀ tls err, s.config.Net ≠ "unix" → sec.Tls = some tls →
      env.NewServerTLSFromFile tls.CertFile tls.KeyFile ≠ Except.error err) :
    ∃ f, observe s (Event.StartWithServer f) ∈ (Start s env).trace := by
  rcases Start_cases s env sec hsec with ⟨tls, err, h1, h2, h3, _⟩ | ⟨tls, creds, _, _, _, h⟩ | ⟨_, h⟩
  · exact absurd h3 (htls tls err h1 h2)
  · rw [h]
    exact ⟨_, List.mem_cons_of_mem _ (List.mem_cons_of_mem _ (List.mem_singleton_self _))⟩
  · rw [h]
    exact ⟨_, List.mem_cons_of_mem _ (List.mem_singleton_self _)⟩

/-- C1: with at least one registered authenticator, every server that Start
hands to the transport has the unary chain [rwlock guard, correlation,
authentication, authorization, logging, metrics] followed by the caller's
unary interceptors, and the stream chain [rwlock guard, authentication,
authorization, logging, metrics] followed by the caller's stream interceptors,
in their configured order; and Start does hand a server to the transport
unless loading the TLS credentials fails. -/
theorem Start_chains_with_authenticators (s : GrpcFrameworkServer) (env : Env)
    (sec : SecurityConfig) (hsec : s.config.Security = some sec)
    (hauth : mapLen sec.Authenticators ≠ 0) :
    (∀ o ∈ (Start s env).trace, ∀ f, o.event = Event.StartWithServer f →
      ∃ credsPart tapPart, f.opts = s.config.ServerOptions ++ credsPart
          ++ [ ServerOption.UnaryInterceptor
                ([ UnaryServerInterceptor.rwlockUnaryIntercepter,
                   UnaryServerInterceptor.ContextUnaryServerInterceptor,
                   UnaryServerInterceptor.grpcAuthUnaryServerInterceptor,
                   UnaryServerInterceptor.authorizationServerUnaryInterceptor,
                   UnaryServerInterceptor.loggerServerUnaryInterceptor,
                   UnaryServerInterceptor.grpcPrometheusUnaryServerInterceptor ]
                  ++ s.config.UnaryServerInterceptors),
               ServerOption.StreamInterceptor
                ([ StreamServerInterceptor.rwlockStreamIntercepter,
                   StreamServerInterceptor.grpcAuthStreamServerInterceptor,
                   StreamServerInterceptor.authorizationServerStreamInterceptor,
                   StreamServerInterceptor.loggerServerStreamInterceptor,
                   StreamServerInterceptor.grpcPrometheusStreamServerInterceptor ]
                  ++ s.config.StreamServerInterceptors) ]
          ++ tapPart
        ∧ (∀ x ∈ credsPart, ∃ c, x = ServerOption.Creds c)
        ∧ (∀ x ∈ tapPart, x = ServerOption.InTapHandle ServerInHandle.rateLimiter))
    ∧ ((∀ tls err, s.config.Net ≠ "unix" → sec.Tls = some tls →
          env.NewServerTLSFromFile tls.CertFile tls.KeyFile ≠ Except.error err) →
        ∃ f, observe s (Event.StartWithServer f) ∈ (Start s env).trace) := by
  refine ⟨?_, Start_reaches_transport s env sec hsec⟩
  intro o ho f hf
  obtain ⟨credsPart, hopts, hcreds⟩ := Start_factory_shape s env sec hsec o ho f hf
  refine ⟨credsPart, tapOptions s, ?_, hcreds, tapOptions_only_tap s⟩
  rw [hopts]
  simp [chainOptions, unaryChain, streamChain, hauth, securityUnaryInterceptors,
    securityStreamInterceptors]

/-- C1 at a server with one authenticator and one extension of each kind: the
transport is reached, with the chains of the property. -/
theorem Start_chains_with_authenticators_witness :
    ∃ f, observe authServer (Event.StartWithServer f) ∈ (Start authServer okEnv).trace
      ∧ ∃ credsPart tapPart, f.opts = authServer.config.ServerOptions ++ credsPart
          ++ [ ServerOption.UnaryInterceptor
                ([ UnaryServerInterceptor.rwlockUnaryIntercepter,
                   UnaryServerInterceptor.ContextUnaryServerInterceptor,
                   UnaryServerInterceptor.grpcAuthUnaryServerInterceptor,
                   UnaryServerInterceptor.authorizationServerUnaryInterceptor,
                   UnaryServerInterceptor.loggerServerUnaryInterceptor,
                   UnaryServerInterceptor.grpcPrometheusUnaryServerInterceptor ]
                  ++ authServer.config.UnaryServerInterceptors),
               ServerOption.StreamInterceptor
                ([ StreamServerInterceptor.rwlockStreamIntercepter,
                   StreamServerInterceptor.grpcAuthStreamServerInterceptor,
                   StreamServerInterceptor.authorizationServerStreamInterceptor,
                   StreamServerInterceptor.loggerServerStreamInterceptor,
                   StreamServerInterceptor.grpcPrometheusStreamServerInterceptor ]
                  ++ authServer.config.StreamServerInterceptors) ]
          ++ tapPart
        ∧ (∀ x ∈ credsPart, ∃ c, x = ServerOption.Creds c)
        ∧ (∀ x ∈ tapPart, x = ServerOption.InTapHandle ServerInHandle.rateLimiter) :=
  match (Start_chains_with_authenticators authServer okEnv authSecurity rfl (by decide)).2
      (fun tls err _ h => by simp [authSecurity] at h) with
  | ⟨f, hf⟩ =>
    ⟨f, hf, (Start_chains_with_authenticators authServer okEnv authSecurity rfl
      (by decide)).1 _ hf f rfl⟩

/-- C2: with no registered authenticator (nil or empty map), every server that
Start hands to the transport has the unary chain [rwlock guard, correlation,
logging, metrics] followed by the caller's unary interceptors and the stream
chain [rwlock guard, logging, metrics] followed by the caller's stream
interceptors; with one unary extension X the unary chain is [guard,
correlation, log, metrics, X]; and Start does hand a server to the transport
unless loading the TLS credentials fails. -/
theorem Start_chains_without_authenticators (s : GrpcFrameworkServer) (env : Env)
    (sec : SecurityConfig) (hsec : s.config.Security = some sec)
    (hnone : sec.Authenticators = none ∨ sec.Authenticators = some []) :
    (∀ o ∈ (Start s env).trace, ∀ f, o.event = Event.StartWithServer f →
      ∃ credsPart tapPart, f.opts = s.config.ServerOptions ++ credsPart
          ++ [ ServerOption.UnaryInterceptor
                ([ UnaryServerInterceptor.rwlockUnaryIntercepter,
                   UnaryServerInterceptor.ContextUnaryServerInterceptor,
                   UnaryServerInterceptor.loggerServerUnaryInterceptor,
                   UnaryServerInterceptor.grpcPrometheusUnaryServerInterceptor ]
                  ++ s.config.UnaryServerInterceptors),
               ServerOption.StreamInterceptor
                ([ StreamServerInterceptor.rwlockStreamIntercepter,
                   StreamServerInterceptor.loggerServerStreamInterceptor,
                   StreamServerInterceptor.grpcPrometheusStreamServerInterceptor ]
                  ++ s.config.StreamServerInterceptors) ]
          ++ tapPart
        ∧ (∀ x ∈ credsPart, ∃ c, x = ServerOption.Creds c)
        ∧ (∀ x ∈ tapPart, x = ServerOption.InTapHandle ServerInHandle.rateLimiter)
        ∧ (∀ X, s.config.UnaryServerInterceptors = [X] →
            ServerOption.UnaryInterceptor
                [ UnaryServerInterceptor.rwlockUnaryIntercepter,
                  UnaryServerInterceptor.ContextUnaryServerInterceptor,
                  UnaryServerInterceptor.loggerServerUnaryInterceptor,
                  UnaryServerInterceptor.grpcPrometheusUnaryServerInterceptor, X ] ∈ f.opts))
    ∧ ((∀ tls err, s.config.Net ≠ "unix" → sec.Tls = some tls →
          env.NewServerTLSFromFile tls.CertFile tls.KeyFile ≠ Except.error err) →
        ∃ f, observe s (Event.StartWithServer f) ∈ (Start s env).trace) := by
  have hlen : mapLen sec.Authenticators = 0 := by
    rcases hnone with h | h <;> rw [h] <;> rfl
  refine ⟨?_, Start_reaches_transport s env sec hsec⟩
  intro o ho f hf
  obtain ⟨credsPart, hopts, hcreds⟩ := Start_factory_shape s env sec hsec o ho f hf
  refine ⟨credsPart, tapOptions s, ?_, hcreds, tapOptions_only_tap s, ?_⟩
  · rw [hopts]
    simp [chainOptions, unaryChain, streamChain, hlen, defaultUnaryInterceptors,
      defaultStreamInterceptors]
  · intro X hX
    rw [hopts]
    simp [chainOptions, unaryChain, hlen, defaultUnaryInterceptors, hX]

/-- C2 at a server with no authenticator and the one unary extension `custom 1`:
the transport is reached, and the unary chain is [guard, correlation, log,
metrics, custom 1]. -/
theorem Start_chains_without_authenticators_witness :
    ∃ f, observe plainServer (Event.StartWithServer f) ∈ (Start plainServer okEnv).trace
      ∧ ServerOption.UnaryInterceptor
          [ UnaryServerInterceptor.rwlockUnaryIntercepter,
            UnaryServerInterceptor.ContextUnaryServerInterceptor,
            UnaryServerInterceptor.loggerServerUnaryInterceptor,
            UnaryServerInterceptor.grpcPrometheusUnaryServerInterceptor,
            UnaryServerInterceptor.custom 1 ] ∈ f.opts :=
  match (Start_chains_without_authenticators plainServer okEnv plainSecurity rfl
      (Or.inl rfl)).2 (fun tls err _ h => by simp [plainSecurity] at h) with
  | ⟨f, hf⟩ =>
    match (Start_chains_without_authenticators plainServer okEnv plainSecurity rfl
        (Or.inl rfl)).1 _ hf f rfl with
    | ⟨_, _, _, _, _, hX⟩ => ⟨f, hf, hX (UnaryServerInterceptor.custom 1) rfl⟩

theorem Start_without_security (s : GrpcFrameworkServer) (env : Env)
    (hsec : s.config.Security = none) :
    (∃ tr, Start s env = ⟨Outcome.fault nilDereference, s, tr⟩
      ∧ (tr = [] ∨ tr = [observe s (Event.logInfo "TLS disabled")])) := by
  by_cases hnet : s.config.Net = "unix"
  · refine ⟨_, ?_, Or.inr rfl⟩
    simp only [Start, hnet, ne_eq, not_true_eq_false, if_false, StartServe, hsec]
  · refine ⟨_, ?_, Or.inl rfl⟩
    simp only [Start, hnet, ne_eq, not_false_eq_true, if_true, hsec]

/-- C7: Start calls the TLS loader if and only if Net is not "unix" and a TLS
cert/key pair is configured. If the load fails, Start returns the credentials
error and never calls StartWithServer. If it succeeds with credentials `creds`,
StartWithServer is called, and with options that are the caller's
ServerOptions, then the one option Creds(creds), then the two chain options,
then only tap options. If the load is not attempted and the security section is
present, StartWithServer is called, and with options that are the caller's
ServerOptions followed directly by the two chain options and then only tap
options. -/
theorem Start_tls_credentials (s : GrpcFrameworkServer) (env : Env) :
    ((∃ o ∈ (Start s env).trace, ∃ cert key, o.event = Event.NewServerTLSFromFile cert key)
      ↔ (s.config.Net ≠ "unix"
          ∧ ∃ sec tls, s.config.Security = some sec ∧ sec.Tls = some tls))
    ∧ (∀ sec tls err, s.config.Net ≠ "unix" → s.config.Security = some sec →
        sec.Tls = some tls →
        env.NewServerTLSFromFile tls.CertFile tls.KeyFile = Except.error err →
        (Start s env).result
            = Outcome.error ("Failed to create credentials from cert files: " ++ err)
          ∧ ∀ o ∈ (Start s env).trace, ∀ f, o.event ≠ Event.StartWithServer f)
    ∧ (∀ sec tls creds, s.config.Net ≠ "unix" → s.config.Security = some sec →
        sec.Tls = some tls →
        env.NewServerTLSFromFile tls.CertFile tls.KeyFile = Except.ok creds →
        ∃ u st tapPart,
          (∀ x ∈ tapPart, x = ServerOption.InTapHandle ServerInHandle.rateLimiter)
          ∧ observe s (Event.StartWithServer
              ⟨s.config.ServerOptions ++ [ServerOption.Creds creds]
                  ++ [ServerOption.UnaryInterceptor u, ServerOption.StreamInterceptor st]
                  ++ tapPart, s.config.GrpcServerExtensions⟩) ∈ (Start s env).trace
          ∧ ∀ o ∈ (Start s env).trace, ∀ f, o.event = Event.StartWithServer f →
              f.opts = s.config.ServerOptions ++ [ServerOption.Creds creds]
                  ++ [ServerOption.UnaryInterceptor u, ServerOption.StreamInterceptor st]
                  ++ tapPart)
    ∧ (∀ sec, s.config.Security = some sec → (s.config.Net = "unix" ∨ sec.Tls = none) →
        ∃ u st tapPart,
          (∀ x ∈ tapPart, x = ServerOption.InTapHandle ServerInHandle.rateLimiter)
          ∧ observe s (Event.StartWithServer
              ⟨s.config.ServerOptions
                  ++ [ServerOption.UnaryInterceptor u, ServerOption.StreamInterceptor st]
                  ++ tapPart, s.config.GrpcServerExtensions⟩) ∈ (Start s env).trace
          ∧ ∀ o ∈ (Start s env).trace, ∀ f, o.event = Event.StartWithServer f →
              f.opts = s.config.ServerOptions
                  ++ [ServerOption.UnaryInterceptor u, ServerOption.StreamInterceptor st]
                  ++ tapPart) := by
  refine ⟨?_, ?_, ?_, ?_⟩
  · cases hsec : s.config.Security with
    | none =>
      obtain ⟨tr, h, htr⟩ := Start_without_security s env hsec
      rw [h]
      rcases htr with htr | htr <;> subst htr <;> simp [observe]
    | some sec =>
      rcases Start_cases s env sec hsec with
        ⟨tls, err, h1, h2, _, h⟩ | ⟨tls, creds, h1, h2, _, h⟩ | ⟨hno, h⟩
      · rw [h]
        simp [observe, h1, h2]
      · rw [h]
        simp [observe, h1, h2]
      · rw [h]
        rcases hno with hno | hno <;> simp [observe, hno]
  · intro sec tls err hnet hsec htls hload
    rcases Start_cases s env sec hsec with
      ⟨tls2, err2, _, h2, h3, h⟩ | ⟨tls2, creds, _, h2, h3, h⟩ | ⟨hno, h⟩
    · rw [htls] at h2
      cases h2
      rw [hload] at h3
      cases h3
      rw [h]
      simp [observe]
    · rw [htls] at h2
      cases h2
      rw [hload] at h3
      cases h3
    · rcases hno with hno | hno
      · exact absurd hno hnet
      · rw [htls] at hno
        cases hno
  · intro sec tls creds hnet hsec htls hload
    rcases Start_cases s env sec hsec with
      ⟨tls2, err2, _, h2, h3, h⟩ | ⟨tls2, creds2, _, h2, h3, h⟩ | ⟨hno, h⟩
    · rw [htls] at h2
      cases h2
      rw [hload] at h3
      cases h3
    · rw [htls] at h2
      cases h2
      rw [hload] at h3
      cases h3
      refine ⟨unaryChain s sec, streamChain s sec, tapOptions s, tapOptions_only_tap s, ?_, ?_⟩
      · rw [h]
        exact List.mem_cons_of_mem _ (List.mem_cons_of_mem _ (List.mem_singleton_self _))
      · rw [h]
        intro o ho f hf
        simp only [List.mem_cons, List.mem_singleton, List.not_mem_nil, or_false] at ho
        rcases ho with ho | ho | ho <;> subst ho <;> simp [observe] at hf
        subst hf
        simp [chainOptions]
    · rcases hno with hno | hno
      · exact absurd hno hnet
      · rw [htls] at hno
        cases hno
  · intro sec hsec hno
    rcases Start_cases s env sec hsec with
      ⟨tls2, err2, h1, h2, _, _⟩ | ⟨tls2, creds2, h1, h2, _, _⟩ | ⟨_, h⟩
    · rcases hno with hno | hno
      · exact absurd hno h1
      · rw [h2] at hno
        cases hno
    · rcases hno with hno | hno
      · exact absurd hno h1
      · rw [h2] at hno
        cases hno
    · refine ⟨unaryChain s sec, streamChain s sec, tapOptions s, tapOptions_only_tap s, ?_, ?_⟩
      · rw [h]
        exact List.mem_cons_of_mem _ (List.mem_singleton_self _)
      · rw [h]
        intro o ho f hf
        simp only [List.mem_cons, List.mem_singleton, List.not_mem_nil, or_false] at ho
        rcases ho with ho | ho <;> subst ho <;> simp [observe] at hf
        subst hf
        simp [chainOptions]

/-- C7 at a tcp server with a cert/key pair whose files cannot be loaded: Start
returns the credentials error and the transport is not started. -/
theorem Start_tls_credentials_witness :
    (Start tlsServer badTlsEnv).result
        = Outcome.error ("Failed to create credentials from cert files: "
            ++ "open cert.pem: no such file")
    ∧ ∀ o ∈ (Start tlsServer badTlsEnv).trace, ∀ f, o.event ≠ Event.StartWithServer f :=
  (Start_tls_credentials tlsServer badTlsEnv).2.1
    ⟨none, some ⟨"cert.pem", "key.pem"⟩, none⟩ ⟨"cert.pem", "key.pem"⟩
    "open cert.pem: no such file" (by decide) rfl rfl rfl

/-- C8: every server that Start hands to the transport has, after the caller's
options and at most one credentials option, the unary chain option, then the
stream chain option, and then the tap option InTapHandle(rateLimiter) if the
global or the per-user rate limiter is configured, and nothing if neither is.
Both chains consist of built-in stages followed by the caller's interceptors,
so the gate is in neither. Start does hand a server to the transport unless
loading the TLS credentials fails. -/
theorem Start_tap_iff_rate_limiter (s : GrpcFrameworkServer) (env : Env)
    (sec : SecurityConfig) (hsec : s.config.Security = some sec) :
    (∀ o ∈ (Start s env).trace, ∀ f, o.event = Event.StartWithServer f →
      ∃ credsPart u st,
        (∀ x ∈ credsPart, ∃ c, x = ServerOption.Creds c)
        ∧ (u = securityUnaryInterceptors ++ s.config.UnaryServerInterceptors
            ∨ u = defaultUnaryInterceptors ++ s.config.UnaryServerInterceptors)
        ∧ (st = securityStreamInterceptors ++ s.config.StreamServerInterceptors
            ∨ st = defaultStreamInterceptors ++ s.config.StreamServerInterceptors)
        ∧ f.opts = s.config.ServerOptions ++ credsPart
            ++ [ServerOption.UnaryInterceptor u, ServerOption.StreamInterceptor st]
            ++ (if s.config.RateLimiters.RateLimiter.isSome
                  ∨ s.config.RateLimiters.RateLimiterPerUser.isSome then
                [ServerOption.InTapHandle ServerInHandle.rateLimiter]
              else []))
    ∧ ((∀ tls err, s.config.Net ≠ "unix" → sec.Tls = some tls →
          env.NewServerTLSFromFile tls.CertFile tls.KeyFile ≠ Except.error err) →
        ∃ f, observe s (Event.StartWithServer f) ∈ (Start s env).trace) := by
  refine ⟨?_, Start_reaches_transport s env sec hsec⟩
  intro o ho f hf
  obtain ⟨credsPart, hopts, hcreds⟩ := Start_factory_shape s env sec hsec o ho f hf
  refine ⟨credsPart, unaryChain s sec, streamChain s sec, hcreds, ?_, ?_, ?_⟩
  · unfold unaryChain
    split
    · exact Or.inl rfl
    · exact Or.inr rfl
  · unfold streamChain
    split
    · exact Or.inl rfl
    · exact Or.inr rfl
  · rw [hopts]
    rfl

/-- C8 at a server with a global rate limiter and no TLS: the transport is
reached, and the options end with the two chain options and the tap. -/
theorem Start_tap_iff_rate_limiter_witness :
    ∃ f, observe exhaustedServer (Event.StartWithServer f)
        ∈ (Start exhaustedServer okEnv).trace
      ∧ ∃ credsPart u st,
        (∀ x ∈ credsPart, ∃ c, x = ServerOption.Creds c)
        ∧ (u = securityUnaryInterceptors ++ exhaustedServer.config.UnaryServerInterceptors
            ∨ u = defaultUnaryInterceptors ++ exhaustedServer.config.UnaryServerInterceptors)
        ∧ (st = securityStreamInterceptors ++ exhaustedServer.config.StreamServerInterceptors
            ∨ st = defaultStreamInterceptors
              ++ exhaustedServer.config.StreamServerInterceptors)
        ∧ f.opts = exhaustedServer.config.ServerOptions ++ credsPart
            ++ [ServerOption.UnaryInterceptor u, ServerOption.StreamInterceptor st]
            ++ (if exhaustedServer.config.RateLimiters.RateLimiter.isSome
                  ∨ exhaustedServer.config.RateLimiters.RateLimiterPerUser.isSome then
                [ServerOption.InTapHandle ServerInHandle.rateLimiter]
              else []) :=
  match (Start_tap_iff_rate_limiter exhaustedServer okEnv plainSecurity rfl).2
      (fun tls err _ h => by simp [plainSecurity] at h) with
  | ⟨f, hf⟩ =>
    ⟨f, hf, (Start_tap_iff_rate_limiter exhaustedServer okEnv plainSecurity rfl).1 _ hf f rfl⟩

/-! ## The lifecycle guard -/

theorem Start_server_and_guard (s : GrpcFrameworkServer) (env : Env) :
    (Start s env).server = s ∧ ∀ o ∈ (Start s env).trace, o.guard = s.lock := by
  cases hsec : s.config.Security with
  | none =>
    obtain ⟨tr, h, htr⟩ := Start_without_security s env hsec
    rw [h]
    rcases htr with htr | htr <;> subst htr <;> simp [observe]
  | some sec =>
    rcases Start_cases s env sec hsec with
      ⟨tls, err, _, _, _, h⟩ | ⟨tls, creds, _, _, _, h⟩ | ⟨_, h⟩ <;>
      rw [h] <;> simp [observe]

/-- C5 fails on the code: on an idle server, whose guard nobody holds, the
guard is not held exclusively in the states of Start: there is a call made by
Start (the one that starts the transport among them) at which a shared acquire
of the guard succeeds. -/
theorem Start_does_not_hold_guard :
    ¬ (∀ o ∈ (Start plainServer okEnv).trace, o.guard.RLock = none) := by
  decide

/-- C5 as the code has it: transactionStart succeeds exactly when the guard has
no holder, it then holds the guard exclusively, so that neither a shared nor
an exclusive acquire succeeds, and transactionEnd releases it, restoring the
guard as it was. Start calls neither: the server and its guard are the same on
return as on entry, and in every state of Start the guard is in the mode it
had on entry, so a shared acquire succeeds during Start exactly when it would
have succeeded before. -/
theorem Start_leaves_guard_unchanged (s : GrpcFrameworkServer) (env : Env) :
    ((transactionStart s).isSome = true ↔ (s.lock.writer = false ∧ s.lock.readers = 0))
    ∧ (∀ t, transactionStart s = some t →
        t.lock.writer = true ∧ t.lock.RLock = none ∧ t.lock.Lock = none
          ∧ ∃ u, transactionEnd t = some u ∧ u.lock = s.lock)
    ∧ (Start s env).server.lock = s.lock
    ∧ (∀ o ∈ (Start s env).trace, o.guard = s.lock)
    ∧ (∀ o ∈ (Start s env).trace, o.guard.RLock = s.lock.RLock) := by
  obtain ⟨hsrv, hguard⟩ := Start_server_and_guard s env
  refine ⟨?_, ?_, by rw [hsrv], hguard, fun o ho => by rw [hguard o ho]⟩
  · unfold transactionStart RWMutex.Lock
    by_cases h : s.lock.writer = false ∧ s.lock.readers = 0
    · simp [h]
    · simp [h]
  · intro t ht
    unfold transactionStart RWMutex.Lock at ht
    by_cases h : s.lock.writer = false ∧ s.lock.readers = 0
    · simp only [h, and_self, if_true] at ht
      cases ht
      obtain ⟨hw, hr⟩ := h
      refine ⟨rfl, by simp [RWMutex.RLock], by simp [RWMutex.Lock], ?_⟩
      refine ⟨_, by simp [transactionEnd, RWMutex.Unlock]; rfl, ?_⟩
      cases hl : s.lock with
      | mk w r =>
        rw [hl] at hw hr
        simp only at hw hr
        subst hw
        subst hr
        simp
    · simp [h] at ht

/-- C5 as the code has it, at an idle server: transactionStart takes the guard
exclusively, a shared acquire then fails, and transactionEnd restores the guard. -/
theorem Start_leaves_guard_unchanged_witness :
    transactionStart plainServer = some { plainServer with lock := ⟨true, 0⟩ }
    ∧ ({ plainServer with lock := ⟨true, 0⟩ } : GrpcFrameworkServer).lock.writer = true
    ∧ ({ plainServer with lock := ⟨true, 0⟩ } : GrpcFrameworkServer).lock.RLock = none
    ∧ ({ plainServer with lock := ⟨true, 0⟩ } : GrpcFrameworkServer).lock.Lock = none
    ∧ ∃ u, transactionEnd { plainServer with lock := ⟨true, 0⟩ } = some u
        ∧ u.lock = plainServer.lock :=
  ⟨rfl, (Start_leaves_guard_unchanged plainServer okEnv).2.1 _ rfl⟩

end GrpcFramework
